import Mathlib

/-!
# cudaq/Support/Version.h

A shallow embedding of the one declaration of the header,

    constexpr const char *bugReportMsg =
        "PLEASE submit a bug report to https://github.com/NVIDIA/cuda-quantum and "
        "include the crash backtrace.\n";

The initialiser consists of two adjacent string-literal tokens, which the
C++ translator joins into one literal.  Each token is embedded as a Lean
string with the same text, and the constant is their concatenation.
-/

namespace cudaq

/-- First string-literal token of the initialiser of `bugReportMsg`
(Version.h, line 17). -/
def bugReportMsgLiteral1 : String :=
  "PLEASE submit a bug report to https://github.com/NVIDIA/cuda-quantum and "

/-- Second string-literal token of the initialiser of `bugReportMsg`
(Version.h, line 18); the escape sequence at its end denotes a line feed. -/
def bugReportMsgLiteral2 : String :=
  "include the crash backtrace.\n"

/-- A generic bug report message (Version.h, lines 16 to 18): adjacent
string-literal tokens are concatenated. -/
def bugReportMsg : String :=
  bugReportMsgLiteral1 ++ bugReportMsgLiteral2

/-- The bug-tracker URL, as a sequence of characters. -/
def trackerUrl : List Char :=
  "https://github.com/NVIDIA/cuda-quantum".data

set_option maxRecDepth 100000

/-! ## Facts about lists used for locating a pattern inside a text -/

/-- When a text splits as `pre ++ pat ++ post`, the three pieces are
determined by the length of `pre`. -/
theorem split_pieces {α : Type} (s pre pat post : List α)
    (h : s = pre ++ pat ++ post) :
    pre = s.take pre.length ∧
      (s.drop pre.length).take pat.length = pat ∧
      post = s.drop (pre.length + pat.length) ∧
      pre.length + pat.length ≤ s.length := by
  subst h
  refine ⟨?_, ?_, ?_, ?_⟩
  · simp [List.append_assoc]
  · simp [List.append_assoc]
  · rw [← List.length_append]
    simp
  · simp

/-- The only offset of `bugReportMsg` at which `trackerUrl` starts is 30. -/
theorem trackerUrl_offset :
    ∀ i, i ≤ 102 → (bugReportMsg.data.drop i).take 38 = trackerUrl → i = 30 := by
  decide

/-! ## The value of the constant -/

/-- C1: `bugReportMsg`, the concatenation of its two adjacent literals, is
exactly the sentence "PLEASE submit a bug report to
https://github.com/NVIDIA/cuda-quantum and include the crash backtrace."
followed by one line feed (U+000A), with nothing before or after it. -/
theorem bugReportMsg_exact :
    bugReportMsg =
      "PLEASE submit a bug report to https://github.com/NVIDIA/cuda-quantum and include the crash backtrace."
        ++ String.singleton (Char.ofNat 10) := by
  decide

/-- C2: `bugReportMsg` is non-empty, its last character is a line feed
(U+000A) and no other character of it is one, so it is one complete
newline-terminated line; in particular the first literal holds no line feed
and the second does not start with one, so the seam between the literals
adds no line break. -/
theorem bugReportMsg_single_line :
    bugReportMsg.data ≠ [] ∧
      bugReportMsg.data.getLast? = some (Char.ofNat 10) ∧
      bugReportMsg.data.count (Char.ofNat 10) = 1 ∧
      Char.ofNat 10 ∉ bugReportMsg.data.dropLast ∧
      Char.ofNat 10 ∉ bugReportMsgLiteral1.data ∧
      bugReportMsgLiteral2.data.head? ≠ some (Char.ofNat 10) := by
  decide

/-- C3: `bugReportMsg` contains the bug-tracker URL exactly once (there is
one and only one way to split the message around it), and at every
occurrence the text before the URL ends with "to " and the text after it
starts with " and": a single space on each side, with a letter beyond the
space.  The occurrence lies in the first literal, which ends with " and ",
so the text after the URL is " and " followed by the second literal. -/
theorem bugReportMsg_url_once :
    (∃! p : List Char × List Char,
        bugReportMsg.data = p.1 ++ trackerUrl ++ p.2) ∧
      ∀ pre post : List Char, bugReportMsg.data = pre ++ trackerUrl ++ post →
        "to ".data <:+ pre ∧ " and".data <+: post ∧
          post = " and ".data ++ bugReportMsgLiteral2.data := by
  have key : ∀ pre post : List Char,
      bugReportMsg.data = pre ++ trackerUrl ++ post →
        pre = bugReportMsg.data.take 30 ∧ post = bugReportMsg.data.drop 68 := by
    intro pre post h
    obtain ⟨h1, h2, h3, h4⟩ := split_pieces _ pre trackerUrl post h
    have hlen : trackerUrl.length = 38 := by decide
    have hmsg : bugReportMsg.data.length = 102 := by decide
    rw [hlen] at h2 h3 h4
    have hi : pre.length = 30 :=
      trackerUrl_offset pre.length (by omega) h2
    rw [hi] at h1 h3
    exact ⟨h1, h3⟩
  refine ⟨⟨(bugReportMsg.data.take 30, bugReportMsg.data.drop 68), by decide, ?_⟩, ?_⟩
  · rintro ⟨pre, post⟩ h
    obtain ⟨h1, h2⟩ := key pre post h
    simp only [h1, h2]
  · intro pre post h
    obtain ⟨h1, h2⟩ := key pre post h
    subst h1 h2
    decide

/-- C4: every character of `bugReportMsg` before the final line feed is
printable ASCII (code 32 to 126), no two consecutive characters of the
message are both spaces, and the length of the message in bytes (UTF-8)
equals its length in characters. -/
theorem bugReportMsg_printable_ascii :
    (∀ c ∈ bugReportMsg.data.dropLast, 32 ≤ c.toNat ∧ c.toNat ≤ 126) ∧
      bugReportMsg.data.getLast? = some (Char.ofNat 10) ∧
      ¬ ([Char.ofNat 32, Char.ofNat 32] <:+: bugReportMsg.data) ∧
      bugReportMsg.utf8ByteSize = bugReportMsg.length := by
  decide

end cudaq
